import Mathlib

/-!
Verification of the hajime-milk payload retrieval tool (`hajime-milk.py`).

The development shallowly embeds the program's pure string logic
(`fix_payload_name`, `get_config_module_entries`, the watch-file
resolution of `do_watch`) and its filesystem-effecting orchestration
(`hajime_get`, `do_one`) as Lean functions.  The filesystem is modelled
as an association list from paths to file contents; the two external
subprocess collaborators (`hajime_getfile` and `hajime_parse_payload`)
are modelled by an oracle record carrying their observable outcomes.
-/

/-! ## Python string primitives

Models of the Python string operations the program uses:
`str.split('.')`, `'.'.join`, `str.strip`, `str.lower`, `int(str)`,
`os.path.join`, and file-to-lines reading (`readlines`).
-/

/-- Auxiliary splitter: splits a character list at every occurrence of
`sep`, threading the (reversed) current piece. -/
def splitChAux (sep : Char) : List Char → List Char → List (List Char)
  | [], acc => [acc.reverse]
  | c :: rest, acc =>
    if c = sep then acc.reverse :: splitChAux sep rest []
    else splitChAux sep rest (c :: acc)

/-- Python `s.split(sep)` for a single-character separator: always returns
a non-empty list of pieces; `"".split('.') = ['']`. -/
def pySplitCh (sep : Char) (s : String) : List String :=
  (splitChAux sep s.toList []).map String.mk

/-- Python `pname.split('.')` (source line 162). -/
def pySplitDot (s : String) : List String := pySplitCh '.' s

/-- Python `'.'.join(pieces)` (source line 168). -/
def pyJoinDot : List String → String
  | [] => ""
  | [s] => s
  | s :: rest => s ++ "." ++ pyJoinDot rest

/-- Strip leading and trailing whitespace from a character list. -/
def stripChars (l : List Char) : List Char :=
  ((l.dropWhile Char.isWhitespace).reverse.dropWhile Char.isWhitespace).reverse

/-- Python `s.strip()` (for the common whitespace characters). -/
def pyStrip (s : String) : String := String.mk (stripChars s.toList)

/-- Python `s.lower()` (ASCII case folding, as in the source's usage). -/
def pyLower (s : String) : String := String.mk (s.toList.map Char.toLower)

/-- Decimal value of a digit list (most significant first). -/
def digitsVal (l : List Char) : Nat :=
  l.foldl (fun a c => a * 10 + (c.toNat - 48)) 0

/-- Python `int(chars)` after stripping: an optional sign followed by a
non-empty run of decimal digits; anything else raises `ValueError`,
modelled as `none`. -/
def pyIntChars : List Char → Option Int
  | [] => none
  | c :: rest =>
    if c = '+' then
      if rest ≠ [] ∧ rest.all Char.isDigit then some (digitsVal rest) else none
    else if c = '-' then
      if rest ≠ [] ∧ rest.all Char.isDigit then some (-(digitsVal rest : Int)) else none
    else
      if (c :: rest).all Char.isDigit then some (digitsVal (c :: rest)) else none

/-- Python `int(s)`: `none` models a raised `ValueError`. -/
def pyInt (s : String) : Option Int := pyIntChars (stripChars s.toList)

/-- Does the string start with a `'/'`? (for `os.path.join` semantics). -/
def strStartsWithSlash (s : String) : Bool :=
  match s.toList with
  | c :: _ => c = '/'
  | [] => false

/-- Does the string end with a `'/'`? (for `os.path.join` semantics). -/
def strEndsWithSlash (s : String) : Bool :=
  match s.toList.getLast? with
  | some c => c = '/'
  | none => false

/-- Python `os.path.join(a, b)` for two components: an absolute second
component wins; otherwise a single separator is inserted unless `a`
already ends with one or is empty. -/
def pyJoin (a b : String) : String :=
  if strStartsWithSlash b then b
  else if a = "" then b
  else if strEndsWithSlash a then a ++ b
  else a ++ "/" ++ b

/-- Is the first character list a prefix of the second? -/
def chPrefixOf : List Char → List Char → Bool
  | [], _ => true
  | _ :: _, [] => false
  | a :: as, b :: bs => a = b && chPrefixOf as bs

/-- Is the first character list a contiguous sublist of the second? -/
def chInfixOf (needle : List Char) : List Char → Bool
  | [] => needle.isEmpty
  | c :: rest => chPrefixOf needle (c :: rest) || chInfixOf needle rest

/-- Python `in` on strings: substring containment. -/
def pyInStr (needle hay : String) : Bool :=
  chInfixOf needle.toList hay.toList

/-- The lines of a text, as Python's `file.readlines()` produces them
(modulo the line terminators, which every caller strips anyway): split
on `'\n'`, with no phantom empty line after a final newline. -/
def pyLines (s : String) : List String :=
  if s = "" then []
  else
    let p := pySplitCh '\n' s
    if p.getLast! = "" then p.dropLast else p

/-! ## NameResolver: `fix_payload_name` (source lines 158-172) -/

/-- Model of `fix_payload_name(pname, ctime)` from the source.  `none` models the
uncaught `ValueError` that `int(co[-1])` raises when the last
dot-separated component of a non-`"config"` name is not an integer.

```python
def fix_payload_name(pname, ctime):
    if pname == 'config':
        fixed_pname = '%s.%s' % (pname, ctime)
    else:
        co = pname.split('.')
        prefix = ''
        if co[0] == '':
            prefix = '__'
        if int(co[-1]) != ctime:
            fixed_pname = '%s%s.%s' % (prefix, '.'.join(co[:-1]), ctime)
        else:
            fixed_pname = '%s%s' % (prefix, pname)
    return fixed_pname
```
-/
def fix_payload_name (pname : String) (ctime : Int) : Option String :=
  if pname = "config" then some (pname ++ "." ++ toString ctime)
  else
    let co := pySplitDot pname
    let pfx := if co.head! = "" then "__" else ""
    match pyInt co.getLast! with
    | none => none
    | some t =>
      if t ≠ ctime then some (pfx ++ pyJoinDot co.dropLast ++ "." ++ toString ctime)
      else some (pfx ++ pname)

/-- String append is associative (on the underlying character lists). -/
theorem strAppendAssoc (a b c : String) : a ++ b ++ c = a ++ (b ++ c) := by
  cases a with
  | mk la =>
    cases b with
    | mk lb =>
      cases c with
      | mk lc =>
        show String.mk (la ++ lb ++ lc) = String.mk (la ++ (lb ++ lc))
        rw [List.append_assoc]

/-- C1: for every non-"config" requested name whose last dot-separated
component parses as an integer `T`, and every discovered creation
timestamp `ctime`: `fix_payload_name` returns the requested name
unchanged when `T = ctime`, and returns `prefix ++ "." ++ ctime` (the
components except the last, joined by dots) when `T ≠ ctime`; in both
cases the marker `"__"` is prepended exactly when the first component is
empty. -/
theorem c1_resolve_nonconfig (pname : String) (ctime T : Int)
    (hne : pname ≠ "config")
    (hT : pyInt ((pySplitDot pname).getLast!) = some T) :
    fix_payload_name pname ctime =
      some ((if (pySplitDot pname).head! = "" then "__" else "") ++
        (if T = ctime then pname
         else pyJoinDot (pySplitDot pname).dropLast ++ "." ++ toString ctime)) := by
  simp only [fix_payload_name, if_neg hne, hT]
  by_cases h : T = ctime
  · simp [h]
  · simp [h, strAppendAssoc]

/-- Witness for C1 at the concrete hidden-style name `".i.arm7.111"`
with a differing true timestamp `222`. -/
theorem c1_resolve_nonconfig_witness :
    ".i.arm7.111" ≠ "config" ∧
    pyInt ((pySplitDot ".i.arm7.111").getLast!) = some 111 ∧
    fix_payload_name ".i.arm7.111" 222 =
      some ((if (pySplitDot ".i.arm7.111").head! = "" then "__" else "") ++
        (if (111 : Int) = 222 then ".i.arm7.111"
         else pyJoinDot (pySplitDot ".i.arm7.111").dropLast ++ "." ++ toString (222 : Int))) :=
  ⟨by decide, by decide,
    c1_resolve_nonconfig ".i.arm7.111" 222 111 (by decide) (by decide)⟩

/-- C2: for every creation timestamp `ctime`,
`fix_payload_name "config" ctime = "config." ++ ctime`; the `"config"`
branch never splits the requested name. -/
theorem c2_resolve_config (ctime : Int) :
    fix_payload_name "config" ctime = some ("config." ++ toString ctime) := by
  unfold fix_payload_name
  rw [if_pos rfl, show ("config" : String) ++ "." = "config." by decide]

/-- C7: `fix_payload_name` fails (raises `ValueError`, modelled as
`none`) exactly when the requested name is not `"config"` and its last
dot-separated component is not parseable as an integer; on every other
input it totally returns a name. -/
theorem c7_resolve_failure_iff (pname : String) (ctime : Int) :
    fix_payload_name pname ctime = none ↔
      pname ≠ "config" ∧ pyInt ((pySplitDot pname).getLast!) = none := by
  by_cases hc : pname = "config"
  · simp [fix_payload_name, hc]
  · simp only [fix_payload_name, if_neg hc]
    cases h : pyInt (pySplitDot pname).getLast! with
    | none => simp [hc, h]
    | some t =>
      simp only [hc, h, ne_eq, not_false_iff, true_and]
      split_ifs <;> simp

/-! ## Filesystem model

A flat map from absolute paths to file contents, as an association
list.  `FS.write` models creating/truncating a file, `FS.erase` models
`os.unlink`, `FS.rename` models `os.rename`.  Directories are not
modelled (the `os.mkdir` at source line 186 does not affect the file
map). -/

/-- The filesystem: an association list from paths to contents. -/
def FS := List (String × String)

instance : DecidableEq FS := by
  unfold FS
  infer_instance

/-- Contents of the file at path `p`, if present. -/
def FS.lookup : FS → String → Option String
  | [], _ => none
  | (k, v) :: t, p => if k = p then some v else FS.lookup t p

/-- Remove the file at path `p` (`os.unlink`). -/
def FS.erase : FS → String → FS
  | [], _ => []
  | (k, v) :: t, p => if k = p then FS.erase t p else (k, v) :: FS.erase t p

/-- Create or truncate the file at path `p` with contents `v`. -/
def FS.write (fs : FS) (p v : String) : FS := (p, v) :: FS.erase fs p

/-- Model of `os.path.exists`, restricted to files. -/
def FS.pathExists (fs : FS) (p : String) : Bool := (FS.lookup fs p).isSome

/-- Model of `os.rename src dst` (the `src`-absent case cannot arise on the
program's paths and leaves the filesystem unchanged). -/
def FS.rename (fs : FS) (src dst : String) : FS :=
  match FS.lookup fs src with
  | some v => FS.write (FS.erase fs src) dst v
  | none => fs

theorem FS.lookup_erase (fs : FS) (p q : String) :
    FS.lookup (FS.erase fs p) q = if q = p then none else FS.lookup fs q := by
  induction fs with
  | nil => simp [FS.erase, FS.lookup]
  | cons e t ih =>
    obtain ⟨k, v⟩ := e
    simp only [FS.erase]
    by_cases hkp : k = p
    · rw [if_pos hkp, ih]
      by_cases hqp : q = p
      · simp [hqp]
      · have hkq : ¬ k = q := fun h => hqp (by rw [← h, hkp])
        simp [FS.lookup, hqp, hkq]
    · rw [if_neg hkp]
      by_cases hkq : k = q
      · have hqp : ¬ q = p := fun h => hkp (by rw [hkq, h])
        simp [FS.lookup, hkq, hqp]
      · simp [FS.lookup, hkq, ih]

theorem FS.lookup_write (fs : FS) (p v q : String) :
    FS.lookup (FS.write fs p v) q = if q = p then some v else FS.lookup fs q := by
  unfold FS.write
  by_cases hqp : q = p
  · simp [FS.lookup, hqp]
  · have hpq : ¬ p = q := fun h => hqp h.symm
    simp [FS.lookup, hpq, FS.lookup_erase, hqp]

theorem FS.lookup_rename (fs : FS) (src dst q : String) (v : String)
    (hv : FS.lookup fs src = some v) :
    FS.lookup (FS.rename fs src dst) q =
      if q = dst then some v else if q = src then none else FS.lookup fs q := by
  unfold FS.rename
  rw [hv, FS.lookup_write, FS.lookup_erase]

/-- No string equals itself with `".file"` appended. -/
theorem ne_append_file (s : String) : s ≠ s ++ ".file" := by
  intro h
  have hlen := congrArg String.length h
  rw [String.length_append, show (".file" : String).length = 5 from by decide] at hlen
  omega

/-! ## RetrievalSession: `hajime_get` (source lines 175-229)

The download collaborator (`hajime_getfile`) and the parse collaborator
(`hajime_parse_payload`) are replaced by an oracle `Collab` recording
their observable behaviour for this invocation: the download status and
downloaded bytes, and the reported creation time (with `none` for "no
`creation_time:` line on stderr") and decoded bytes. -/

/-- Observable outcomes of the two external collaborators for one
`hajime_get` invocation. -/
structure Collab where
  dlStatus : Bool
  dlContent : String
  parseRes : Option Int
  decContent : String
  deriving DecidableEq

/-- Filesystem after `tempfile.mkstemp` (creates an empty temp file,
line 190) and the download attempt (which writes whatever bytes the
collaborator produced into the temp raw file, line 195). -/
def hg_fs2 (fs : FS) (t : String) (c : Collab) : FS :=
  FS.write (FS.write fs t "") t c.dlContent

/-- Filesystem after the parse collaborator has additionally written the
decoded temp file `t ++ ".file"` (line 202). -/
def hg_fs3 (fs : FS) (t : String) (c : Collab) : FS :=
  FS.write (hg_fs2 fs t c) (t ++ ".file") c.decContent

/-- One final-placement step (lines 217-227): move the temp file into
place unless the destination exists and `keep` is set, in which case the
temp file is deleted and the destination left alone. -/
def place1 (fs : FS) (keep : Bool) (src dst : String) : FS :=
  if FS.pathExists fs dst = false ∨ keep = false then FS.rename fs src dst
  else FS.erase fs src

/-- Model of `hajime_get(ip, port, pname, directory, keep)` from the source
(lines 175-229), with the peer address abstracted away and the
collaborators' behaviour given by `c`.  `tmp_pname` is the fresh path
returned by `mkstemp`.  The result is `none` when the Python code would
die of an uncaught `ValueError` from `fix_payload_name`; otherwise
`some (fs', status, final_pname, final_fname)` where the two paths are
`none` exactly when the Python code returns `None` for them. -/
def hajime_get (fs : FS) (pname directory : String) (keep : Bool)
    (tmp_pname : String) (c : Collab) :
    Option (FS × Bool × Option String × Option String) :=
  if c.dlStatus = false ∨ c.dlContent = "" then
    -- line 196-199: download failed or downloaded file is empty
    some (FS.erase (hg_fs2 fs tmp_pname c) tmp_pname, false, none, none)
  else
    match c.parseRes with
    | none =>
      -- line 203-207 with ctime = None
      some (FS.erase (FS.erase (hg_fs3 fs tmp_pname c) tmp_pname)
              (tmp_pname ++ ".file"), false, none, none)
    | some ctime =>
      if ctime = 0 then
        -- line 203-207: `if not ctime` is also taken when ctime == 0
        some (FS.erase (FS.erase (hg_fs3 fs tmp_pname c) tmp_pname)
                (tmp_pname ++ ".file"), false, none, none)
      else
        match fix_payload_name pname ctime with
        | none => none
        | some fixed =>
          let final_pname := pyJoin directory fixed
          let final_fname := final_pname ++ ".file"
          some (place1 (place1 (hg_fs3 fs tmp_pname c) keep tmp_pname final_pname)
                  keep (tmp_pname ++ ".file") final_fname,
                true, some final_pname, some final_fname)

/-- On a reported download failure, `hajime_get` deletes the temp raw
file and returns a failed status with absent paths (lines 196-199). -/
theorem hg_download_failure (fs : FS) (pname directory : String) (keep : Bool)
    (tmp_pname : String) (c : Collab)
    (h : c.dlStatus = false ∨ c.dlContent = "") :
    hajime_get fs pname directory keep tmp_pname c =
      some (FS.erase (hg_fs2 fs tmp_pname c) tmp_pname, false, none, none) := by
  unfold hajime_get
  rw [if_pos h]

/-- C3: every execution of `hajime_get` that returns an unsuccessful
status has deleted the temp raw file, and — whenever the download
itself succeeded with non-empty content, i.e. on the parse-failure
path, where the temp decoded file was also created — the temp decoded
file as well. -/
theorem c3_failed_retrieval_leaves_no_temps (fs : FS) (pname directory : String)
    (keep : Bool) (tmp_pname : String) (c : Collab) (fs' : FS) (p f : Option String)
    (h : hajime_get fs pname directory keep tmp_pname c = some (fs', false, p, f)) :
    FS.lookup fs' tmp_pname = none ∧
    (c.dlStatus = true → c.dlContent ≠ "" →
      FS.lookup fs' (tmp_pname ++ ".file") = none) := by
  unfold hajime_get at h
  split at h
  · -- download failure branch
    rename_i hdl
    simp only [Option.some.injEq, Prod.mk.injEq] at h
    obtain ⟨hfs, -, -, -⟩ := h
    subst hfs
    refine ⟨by simp [FS.lookup_erase], ?_⟩
    intro h1 h2
    rcases hdl with hdl | hdl
    · rw [h1] at hdl
      exact absurd hdl (by simp)
    · exact absurd hdl h2
  · -- parse branch
    split at h
    · -- ctime = None
      simp only [Option.some.injEq, Prod.mk.injEq] at h
      obtain ⟨hfs, -, -, -⟩ := h
      subst hfs
      exact ⟨by simp [FS.lookup_erase], fun _ _ => by simp [FS.lookup_erase]⟩
    · -- ctime = some n
      split at h
      · -- n == 0: falsy, also a parse failure
        simp only [Option.some.injEq, Prod.mk.injEq] at h
        obtain ⟨hfs, -, -, -⟩ := h
        subst hfs
        exact ⟨by simp [FS.lookup_erase], fun _ _ => by simp [FS.lookup_erase]⟩
      · -- success path: cannot return a false status
        split at h
        · exact absurd h (by simp)
        · simp only [Option.some.injEq, Prod.mk.injEq] at h
          obtain ⟨-, hb, -, -⟩ := h
          exact absurd hb (by simp)

/-- Witness for C3: a failed download at a concrete input. -/
theorem c3_failed_retrieval_leaves_no_temps_witness :
    FS.lookup ([] : FS) "/tmp/t" = none ∧
    ((⟨false, "", none, ""⟩ : Collab).dlStatus = true → "" ≠ "" →
      FS.lookup ([] : FS) ("/tmp/t" ++ ".file") = none) :=
  c3_failed_retrieval_leaves_no_temps [] "config" "out" false "/tmp/t"
    ⟨false, "", none, ""⟩ [] none none (by decide)

/-- C6 counterexample: on a failed download the code returns
`(False, None, None)` — the final paths are the absence value `None`
(Python's docstring at lines 178-179 says so explicitly), not the empty
string `""` that the claim asserts. -/
theorem c6_counterexample :
    hajime_get [] "config" "out" false "/tmp/t" ⟨false, "", none, ""⟩ =
      some ([], false, none, none) ∧ (none : Option String) ≠ some "" := by
  constructor
  · decide
  · decide

/-- C6 (amended): whenever the download collaborator reports failure or
the downloaded file is empty, `hajime_get` returns a false success flag
together with two absent (`None`) final paths. -/
theorem c6_download_failure_result (fs : FS) (pname directory : String) (keep : Bool)
    (tmp_pname : String) (c : Collab)
    (h : c.dlStatus = false ∨ c.dlContent = "") :
    ∃ fs', hajime_get fs pname directory keep tmp_pname c =
      some (fs', false, none, none) :=
  ⟨_, hg_download_failure fs pname directory keep tmp_pname c h⟩

/-- Witness for C6 (amended) at a concrete failed download. -/
theorem c6_download_failure_result_witness :
    ∃ fs', hajime_get [] "config" "out" false "/tmp/t" ⟨false, "", none, ""⟩ =
      some (fs', false, none, none) :=
  c6_download_failure_result [] "config" "out" false "/tmp/t"
    ⟨false, "", none, ""⟩ (Or.inl rfl)

/-- C10: a reported creation timestamp of `0` is treated as a parse
failure (`if not ctime` tests truthiness, and `0` is falsy): both temp
files are deleted and the retrieval reports failure. -/
theorem c10_zero_timestamp_is_failure (fs : FS) (pname directory : String)
    (keep : Bool) (tmp_pname : String) (c : Collab)
    (hdl : c.dlStatus = true) (hnc : c.dlContent ≠ "") (hp : c.parseRes = some 0) :
    ∃ fs', hajime_get fs pname directory keep tmp_pname c =
        some (fs', false, none, none) ∧
      FS.lookup fs' tmp_pname = none ∧
      FS.lookup fs' (tmp_pname ++ ".file") = none := by
  have hcond : ¬(c.dlStatus = false ∨ c.dlContent = "") := by
    rw [hdl]
    simp [hnc]
  have heq : hajime_get fs pname directory keep tmp_pname c =
      some (FS.erase (FS.erase (hg_fs3 fs tmp_pname c) tmp_pname)
              (tmp_pname ++ ".file"), false, none, none) := by
    unfold hajime_get
    rw [if_neg hcond, hp]
    rfl
  refine ⟨_, heq, ?_, ?_⟩
  · simp [FS.lookup_erase]
  · simp [FS.lookup_erase]

/-- Witness for C10 at a concrete zero-timestamp parse. -/
theorem c10_zero_timestamp_is_failure_witness :
    ∃ fs', hajime_get [] "config" "out" false "/tmp/t" ⟨true, "RAW", some 0, "DEC"⟩ =
        some (fs', false, none, none) ∧
      FS.lookup fs' "/tmp/t" = none ∧
      FS.lookup fs' ("/tmp/t" ++ ".file") = none :=
  c10_zero_timestamp_is_failure [] "config" "out" false "/tmp/t"
    ⟨true, "RAW", some 0, "DEC"⟩ rfl (by decide) rfl

/-- In keep-mode, placement onto an existing destination deletes the
temp file and leaves the destination alone (lines 219-221, 225-227). -/
theorem place1_keep_exists (fs : FS) (src dst v : String)
    (h : FS.lookup fs dst = some v) :
    place1 fs true src dst = FS.erase fs src := by
  unfold place1
  rw [if_neg]
  simp [FS.pathExists, h]

/-- Placement onto a missing destination moves the temp file into place
(lines 217-218, 223-224). -/
theorem place1_missing (fs : FS) (keep : Bool) (src dst : String)
    (h : FS.lookup fs dst = none) :
    place1 fs keep src dst = FS.rename fs src dst := by
  unfold place1
  rw [if_pos]
  left
  simp [FS.pathExists, h]

/-- C4: in keep-mode, for each of the final raw and decoded paths
independently: if the final path already exists, `hajime_get` leaves
its contents unchanged and deletes the corresponding temp file, while
still returning success.  The freshness hypotheses record that
`mkstemp`'s temp paths differ from the final output paths. -/
theorem c4_keep_mode_preserves_existing (fs : FS) (pname directory : String)
    (tmp_pname : String) (c : Collab) (ct : Int) (fixed : String)
    (hdl : c.dlStatus = true) (hnc : c.dlContent ≠ "")
    (hp : c.parseRes = some ct) (hct : ¬ ct = 0)
    (hfix : fix_payload_name pname ct = some fixed)
    (h1 : ¬ tmp_pname = pyJoin directory fixed)
    (h2 : ¬ tmp_pname = pyJoin directory fixed ++ ".file")
    (h3 : ¬ tmp_pname ++ ".file" = pyJoin directory fixed)
    (h4 : ¬ tmp_pname ++ ".file" = pyJoin directory fixed ++ ".file") :
    ∃ fs', hajime_get fs pname directory true tmp_pname c =
        some (fs', true, some (pyJoin directory fixed),
              some (pyJoin directory fixed ++ ".file")) ∧
      (∀ v, FS.lookup fs (pyJoin directory fixed) = some v →
        FS.lookup fs' (pyJoin directory fixed) = some v ∧
        FS.lookup fs' tmp_pname = none) ∧
      (∀ w, FS.lookup fs (pyJoin directory fixed ++ ".file") = some w →
        FS.lookup fs' (pyJoin directory fixed ++ ".file") = some w ∧
        FS.lookup fs' (tmp_pname ++ ".file") = none) := by
  have hcond : ¬(c.dlStatus = false ∨ c.dlContent = "") := by
    rw [hdl]
    simp [hnc]
  have httf : ¬ tmp_pname = tmp_pname ++ ".file" := ne_append_file tmp_pname
  have hfpf : ¬ pyJoin directory fixed = pyJoin directory fixed ++ ".file" :=
    ne_append_file (pyJoin directory fixed)
  have htft : tmp_pname ++ ".file" ≠ tmp_pname := Ne.symm httf
  have hffp : pyJoin directory fixed ++ ".file" ≠ pyJoin directory fixed := Ne.symm hfpf
  have hn1 : pyJoin directory fixed ≠ tmp_pname := Ne.symm h1
  have hn2 : pyJoin directory fixed ++ ".file" ≠ tmp_pname := Ne.symm h2
  have hn3 : pyJoin directory fixed ≠ tmp_pname ++ ".file" := Ne.symm h3
  have hn4 : pyJoin directory fixed ++ ".file" ≠ tmp_pname ++ ".file" := Ne.symm h4
  have heq : hajime_get fs pname directory true tmp_pname c =
      some (place1 (place1 (hg_fs3 fs tmp_pname c) true tmp_pname
              (pyJoin directory fixed)) true (tmp_pname ++ ".file")
              (pyJoin directory fixed ++ ".file"),
            true, some (pyJoin directory fixed),
            some (pyJoin directory fixed ++ ".file")) := by
    unfold hajime_get
    rw [if_neg hcond, hp]
    show (if ct = 0 then _ else _) = _
    rw [if_neg hct, hfix]
  -- lookups in the filesystem as it stands after download and parse
  have hl3fp : FS.lookup (hg_fs3 fs tmp_pname c) (pyJoin directory fixed) =
      FS.lookup fs (pyJoin directory fixed) := by
    simp [hg_fs3, hg_fs2, FS.lookup_write, hn3, hn1]
  have hl3ff : FS.lookup (hg_fs3 fs tmp_pname c) (pyJoin directory fixed ++ ".file") =
      FS.lookup fs (pyJoin directory fixed ++ ".file") := by
    simp [hg_fs3, hg_fs2, FS.lookup_write, hn4, hn2]
  have hl3t : FS.lookup (hg_fs3 fs tmp_pname c) tmp_pname = some c.dlContent := by
    simp [hg_fs3, hg_fs2, FS.lookup_write, httf]
  have hl3tf : FS.lookup (hg_fs3 fs tmp_pname c) (tmp_pname ++ ".file") =
      some c.decContent := by
    simp [hg_fs3, hg_fs2, FS.lookup_write]
  refine ⟨_, heq, ?_, ?_⟩
  · -- the final raw path pre-existed
    intro v hv
    have hpl1 : place1 (hg_fs3 fs tmp_pname c) true tmp_pname (pyJoin directory fixed) =
        FS.erase (hg_fs3 fs tmp_pname c) tmp_pname :=
      place1_keep_exists _ _ _ v (hl3fp.trans hv)
    rw [hpl1]
    cases hw : FS.lookup fs (pyJoin directory fixed ++ ".file") with
    | some w =>
      have hpl2 : place1 (FS.erase (hg_fs3 fs tmp_pname c) tmp_pname) true
          (tmp_pname ++ ".file") (pyJoin directory fixed ++ ".file") =
          FS.erase (FS.erase (hg_fs3 fs tmp_pname c) tmp_pname) (tmp_pname ++ ".file") := by
        refine place1_keep_exists _ _ _ w ?_
        rw [FS.lookup_erase, if_neg hn2, hl3ff, hw]
      rw [hpl2]
      constructor
      · rw [FS.lookup_erase, if_neg hn3,
          FS.lookup_erase, if_neg hn1, hl3fp, hv]
      · simp [FS.lookup_erase]
    | none =>
      have hsrc : FS.lookup (FS.erase (hg_fs3 fs tmp_pname c) tmp_pname)
          (tmp_pname ++ ".file") = some c.decContent := by
        rw [FS.lookup_erase, if_neg htft, hl3tf]
      have hpl2 : place1 (FS.erase (hg_fs3 fs tmp_pname c) tmp_pname) true
          (tmp_pname ++ ".file") (pyJoin directory fixed ++ ".file") =
          FS.rename (FS.erase (hg_fs3 fs tmp_pname c) tmp_pname)
            (tmp_pname ++ ".file") (pyJoin directory fixed ++ ".file") := by
        refine place1_missing _ _ _ _ ?_
        rw [FS.lookup_erase, if_neg hn2, hl3ff, hw]
      rw [hpl2]
      constructor
      · rw [FS.lookup_rename _ _ _ _ _ hsrc, if_neg hfpf, if_neg hn3,
          FS.lookup_erase, if_neg hn1, hl3fp, hv]
      · rw [FS.lookup_rename _ _ _ _ _ hsrc, if_neg h2, if_neg httf,
          FS.lookup_erase, if_pos rfl]
  · -- the final decoded path pre-existed
    intro w hw
    cases hv : FS.lookup fs (pyJoin directory fixed) with
    | some v =>
      have hpl1 : place1 (hg_fs3 fs tmp_pname c) true tmp_pname (pyJoin directory fixed) =
          FS.erase (hg_fs3 fs tmp_pname c) tmp_pname :=
        place1_keep_exists _ _ _ v (hl3fp.trans hv)
      rw [hpl1]
      have hpl2 : place1 (FS.erase (hg_fs3 fs tmp_pname c) tmp_pname) true
          (tmp_pname ++ ".file") (pyJoin directory fixed ++ ".file") =
          FS.erase (FS.erase (hg_fs3 fs tmp_pname c) tmp_pname) (tmp_pname ++ ".file") := by
        refine place1_keep_exists _ _ _ w ?_
        rw [FS.lookup_erase, if_neg hn2, hl3ff, hw]
      rw [hpl2]
      constructor
      · rw [FS.lookup_erase, if_neg hn4,
          FS.lookup_erase, if_neg hn2, hl3ff, hw]
      · simp [FS.lookup_erase]
    | none =>
      have hpl1 : place1 (hg_fs3 fs tmp_pname c) true tmp_pname (pyJoin directory fixed) =
          FS.rename (hg_fs3 fs tmp_pname c) tmp_pname (pyJoin directory fixed) := by
        refine place1_missing _ _ _ _ ?_
        rw [hl3fp, hv]
      rw [hpl1]
      have hren1ff : FS.lookup (FS.rename (hg_fs3 fs tmp_pname c) tmp_pname
          (pyJoin directory fixed)) (pyJoin directory fixed ++ ".file") =
          some w := by
        rw [FS.lookup_rename _ _ _ _ _ hl3t, if_neg hffp,
          if_neg hn2, hl3ff, hw]
      have hpl2 : place1 (FS.rename (hg_fs3 fs tmp_pname c) tmp_pname
          (pyJoin directory fixed)) true
          (tmp_pname ++ ".file") (pyJoin directory fixed ++ ".file") =
          FS.erase (FS.rename (hg_fs3 fs tmp_pname c) tmp_pname
            (pyJoin directory fixed)) (tmp_pname ++ ".file") :=
        place1_keep_exists _ _ _ w hren1ff
      rw [hpl2]
      constructor
      · rw [FS.lookup_erase, if_neg hn4, hren1ff]
      · simp [FS.lookup_erase]

/-- Witness for C4: both final files pre-exist, keep-mode; the old
contents survive and the temp files are gone. -/
theorem c4_keep_mode_preserves_existing_witness :
    ∃ fs', hajime_get [("out/config.5", "OLD"), ("out/config.5.file", "OLDF")]
        "config" "out" true "/tmp/t" ⟨true, "RAW", some 5, "DEC"⟩ =
        some (fs', true, some (pyJoin "out" "config.5"),
              some (pyJoin "out" "config.5" ++ ".file")) ∧
      (∀ v, FS.lookup [("out/config.5", "OLD"), ("out/config.5.file", "OLDF")]
          (pyJoin "out" "config.5") = some v →
        FS.lookup fs' (pyJoin "out" "config.5") = some v ∧
        FS.lookup fs' "/tmp/t" = none) ∧
      (∀ w, FS.lookup [("out/config.5", "OLD"), ("out/config.5.file", "OLDF")]
          (pyJoin "out" "config.5" ++ ".file") = some w →
        FS.lookup fs' (pyJoin "out" "config.5" ++ ".file") = some w ∧
        FS.lookup fs' ("/tmp/t" ++ ".file") = none) :=
  c4_keep_mode_preserves_existing
    [("out/config.5", "OLD"), ("out/config.5.file", "OLDF")]
    "config" "out" "/tmp/t" ⟨true, "RAW", some 5, "DEC"⟩ 5 "config.5"
    rfl (by decide) rfl (by decide) (by decide)
    (by decide) (by decide) (by decide) (by decide)

/-! ## ConfigExpander: `get_config_module_entries` (source lines 95-117) -/

/-- A `\w` word character of Python's `re` (ASCII, no Unicode flag). -/
def isWordChar (c : Char) : Bool := c.isAlphanum || c = '_'

/-- Consume word characters until a `']'`; the flag records whether at
least one word character was seen (for the `+` in the pattern). -/
def headerTail : List Char → Bool → Bool
  | [], _ => false
  | c :: rest, seen =>
    if c = ']' then seen
    else if isWordChar c then headerTail rest true
    else false

/-- Python `re.match('\[\w+\]', line)`: an anchored prefix match of an
opening bracket, one or more word characters, and a closing bracket
(anything may follow). -/
def matchesSectionHeader (s : String) : Bool :=
  match s.toList with
  | '[' :: rest => headerTail rest false
  | _ => false

/-- The scanning loop of `get_config_module_entries` (lines 107-116):
`inm` is the `in_modules` flag. -/
def gcmeAux : List String → Bool → List String
  | [], _ => []
  | line :: rest, inm =>
    let l := pyStrip line
    if pyLower l = "[modules]" then gcmeAux rest true
    else if inm then
      if matchesSectionHeader l then gcmeAux rest false
      else l :: gcmeAux rest inm
    else gcmeAux rest false

/-- Model of `get_config_module_entries(config_path)` from the source (lines
95-117), with the file's text passed in place of its path. -/
def get_config_module_entries (text : String) : List String :=
  gcmeAux (pyLines text) false

/-- What the specification describes for `ConfigExpander.extractModules`
(amended: the source collects every trimmed line inside the section,
including blank ones): scan for a case-insensitive `[modules]` header
line; while inside the section, collect each trimmed line that is not
itself a `[section]` header; the section ends at the next bracketed
header or end of file. -/
def specStep (st : Bool × List String) (line : String) : Bool × List String :=
  let l := pyStrip line
  if pyLower l = "[modules]" then (true, st.2)
  else if st.1 then
    if matchesSectionHeader l then (false, st.2) else (st.1, l :: st.2)
  else (false, st.2)

/-- The specification-side module extractor (amended as above), phrased
as a left fold over the lines with an in-section flag. -/
def specExtractModules (text : String) : List String :=
  (((pyLines text).foldl specStep (false, [])).2).reverse

theorem specStep_foldl (lines : List String) (b : Bool) (acc : List String) :
    ((lines.foldl specStep (b, acc)).2).reverse = acc.reverse ++ gcmeAux lines b := by
  induction lines generalizing b acc with
  | nil => simp [gcmeAux]
  | cons line rest ih =>
    simp only [List.foldl_cons, gcmeAux, specStep]
    by_cases hm : pyLower (pyStrip line) = "[modules]"
    · simp only [if_pos hm, ih]
    · by_cases hb : b
      · by_cases hh : matchesSectionHeader (pyStrip line) = true
        · simp [if_neg hm, hb, hh, ih]
        · simp [if_neg hm, hb, hh, ih]
      · simp [if_neg hm, hb, ih]

/-- C5 counterexample: the claim says only non-blank lines are
collected, but the source appends a blank line inside the `[modules]`
section as an (empty-string) module entry. -/
theorem c5_counterexample :
    get_config_module_entries "[Modules]\n\natk.arm7.111\n[Other]\nignored\n" =
      ["", "atk.arm7.111"] ∧
    get_config_module_entries "[Modules]\n\natk.arm7.111\n[Other]\nignored\n" ≠
      ["atk.arm7.111"] := by
  constructor
  · decide
  · decide

/-- C5 (amended): for every input text, `get_config_module_entries`
returns exactly the trimmed lines — including blank ones — that lie
between a line equal, case-insensitively, to `"[modules]"` and the next
bracketed section header or end of file, excluding header lines
themselves; with no `[modules]` section the result is empty, never an
error. -/
theorem c5_extract_modules_spec (text : String) :
    get_config_module_entries text = specExtractModules text := by
  unfold get_config_module_entries specExtractModules
  rw [specStep_foldl]
  simp

/-! ## Acquirer: `do_one` (source lines 232-246)

The follow loop's dependent retrievals each get their own `mkstemp`
path and collaborator outcome, indexed by position in the module list
(`modTmp i`, `modC i`). -/

/-- The `for module in modules` loop of `do_one` (lines 240-244): a
dependent retrieval's success or failure is ignored, but an uncaught
exception (modelled by `hajime_get` returning `none`) aborts the
process. -/
def runModules (directory : String) (keep : Bool) (arch : String)
    (modTmp : Nat → String) (modC : Nat → Collab) :
    FS → List String → Nat → Option FS
  | fs, [], _ => some fs
  | fs, m :: rest, i =>
    if pyLower arch ≠ "all" ∧ pyInStr arch m = false then
      runModules directory keep arch modTmp modC fs rest (i + 1)
    else
      match hajime_get fs m directory keep (modTmp i) (modC i) with
      | none => none
      | some (fs', _, _, _) => runModules directory keep arch modTmp modC fs' rest (i + 1)

/-- Model of `do_one(ip, port, pname, directory, keep, follow, arch)` from the
source (lines 232-246).  The result is `some (exitCode, fs)` for a
`sys.exit(exitCode)`, and `none` when the Python process would instead
die of an uncaught exception (a `ValueError` from `fix_payload_name`,
or an `IOError` opening a missing config file). -/
def do_one (fs : FS) (pname directory : String) (keep follow : Bool) (arch : String)
    (topTmp : String) (topC : Collab)
    (modTmp : Nat → String) (modC : Nat → Collab) : Option (Nat × FS) :=
  match hajime_get fs pname directory keep topTmp topC with
  | none => none
  | some (fs1, status, _, ffname) =>
    if status = false then some (1, fs1)
    else if pname = "config" ∧ follow = true then
      match ffname with
      | none => none
      | some fpath =>
        match FS.lookup fs1 fpath with
        | none => none
        | some content =>
          match runModules directory keep arch modTmp modC fs1
              (get_config_module_entries content) 0 with
          | none => none
          | some fs2 => some (0, fs2)
    else some (0, fs1)

/-- When every dependent download fails, the follow loop always
completes (no dependent retrieval can raise). -/
theorem runModules_all_fail (directory : String) (keep : Bool) (arch : String)
    (modTmp : Nat → String) (modC : Nat → Collab)
    (hfail : ∀ i, (modC i).dlStatus = false) :
    ∀ ms fs i, ∃ fs', runModules directory keep arch modTmp modC fs ms i = some fs' := by
  intro ms
  induction ms with
  | nil => exact fun fs i => ⟨fs, rfl⟩
  | cons m rest ih =>
    intro fs i
    unfold runModules
    by_cases hskip : pyLower arch ≠ "all" ∧ pyInStr arch m = false
    · rw [if_pos hskip]
      exact ih fs (i + 1)
    · rw [if_neg hskip,
        hg_download_failure fs m directory keep (modTmp i) (modC i) (Or.inl (hfail i))]
      exact ih _ (i + 1)

/-- C8: `do_one`'s exit status reflects only the top-level retrieval.
If the top-level `hajime_get` fails, `do_one` exits with status 1 and
the filesystem is exactly what that single retrieval left (no follow
expansion happens).  If the top-level retrieval succeeds — its decoded
config being readable when follow mode applies — then `do_one` exits
with status 0 even though every dependent follow retrieval fails. -/
theorem c8_exit_status_top_level_only (fs : FS) (pname directory : String)
    (keep follow : Bool) (arch : String) (topTmp : String) (topC : Collab)
    (modTmp : Nat → String) (modC : Nat → Collab) :
    (∀ fs1 p f, hajime_get fs pname directory keep topTmp topC = some (fs1, false, p, f) →
      do_one fs pname directory keep follow arch topTmp topC modTmp modC = some (1, fs1)) ∧
    (∀ fs1 p fpath content,
      hajime_get fs pname directory keep topTmp topC = some (fs1, true, p, some fpath) →
      FS.lookup fs1 fpath = some content →
      (∀ i, (modC i).dlStatus = false) →
      ∃ fs2, do_one fs pname directory keep follow arch topTmp topC modTmp modC =
        some (0, fs2)) := by
  constructor
  · intro fs1 p f h
    unfold do_one
    rw [h]
    rfl
  · intro fs1 p fpath content h hread hfail
    unfold do_one
    rw [h]
    simp only [Bool.true_eq_false, if_false]
    by_cases hc : pname = "config" ∧ follow = true
    · rw [if_pos hc, hread]
      obtain ⟨fs2, h2⟩ := runModules_all_fail directory keep arch modTmp modC hfail
        (get_config_module_entries content) fs1 0
      refine ⟨fs2, ?_⟩
      simp only [h2]
    · rw [if_neg hc]
      exact ⟨fs1, rfl⟩

/-- Witness for C8: a concrete failing top retrieval exits 1; a concrete
successful config retrieval whose single dependent download fails still
exits 0. -/
theorem c8_exit_status_top_level_only_witness :
    do_one [] "config" "out" false true "all" "/tmp/t" ⟨false, "", none, ""⟩
        (fun _ => "/tmp/u") (fun _ => ⟨false, "", none, ""⟩) = some (1, []) ∧
    (∃ fs2, do_one [] "config" "out" false true "all" "/tmp/t"
        ⟨true, "RAW", some 5, "[modules]\natk.arm7.111"⟩
        (fun _ => "/tmp/u") (fun _ => ⟨false, "", none, ""⟩) = some (0, fs2)) := by
  constructor
  · exact (c8_exit_status_top_level_only [] "config" "out" false true "all" "/tmp/t"
      ⟨false, "", none, ""⟩ (fun _ => "/tmp/u") (fun _ => ⟨false, "", none, ""⟩)).1
      [] none none (by decide)
  · exact (c8_exit_status_top_level_only [] "config" "out" false true "all" "/tmp/t"
      ⟨true, "RAW", some 5, "[modules]\natk.arm7.111"⟩
      (fun _ => "/tmp/u") (fun _ => ⟨false, "", none, ""⟩)).2
      [("out/config.5.file", "[modules]\natk.arm7.111"), ("out/config.5", "RAW")]
      (some "out/config.5") "out/config.5.file" "[modules]\natk.arm7.111"
      (by decide) (by decide) (fun _ => rfl)

/-! ## WatchScheduler file resolution (source lines 256-262)

`do_watch` recomputes the tailed file every cycle: when the configured
path is a directory, the file is `os.path.join(watch_path,
time.strftime('%Y-%m-%d.log', time.gmtime(time.time())))`; otherwise
the configured path is used as-is.  `time.gmtime`'s calendar date is
modelled by the standard civil-from-days conversion on non-negative
epoch seconds, and `strftime`'s zero-padded decimal fields by explicit
digit characters (faithful for years below 10000, which covers every
representable `gmtime` result the tool can meet). -/

/-- The (year, month, day) of a day count since 1970-01-01 (proleptic
Gregorian, non-negative days). -/
def civilFromDays (z' : Nat) : Nat × Nat × Nat :=
  let z := z' + 719468
  let era := z / 146097
  let doe := z % 146097
  let yoe := (doe - doe / 1460 + doe / 36524 - doe / 146096) / 365
  let y := yoe + era * 400
  let doy := doe - (365 * yoe + yoe / 4 - yoe / 100)
  let mp := (5 * doy + 2) / 153
  let d := doy - (153 * mp + 2) / 5 + 1
  let m := if mp < 10 then mp + 3 else mp - 9
  (if m ≤ 2 then y + 1 else y, m, d)

/-- The UTC calendar date of an epoch timestamp, as
`time.gmtime(t)[:3]`. -/
def utcDate (t : Nat) : Nat × Nat × Nat := civilFromDays (t / 86400)

/-- The decimal digit character for `n` (`0 ≤ n ≤ 9`). -/
def dc (n : Nat) : Char := Char.ofNat (48 + n)

/-- The ten characters of `'%Y-%m-%d'` for a given date. -/
def dateChars (y m d : Nat) : List Char :=
  [dc (y / 1000), dc (y / 100 % 10), dc (y / 10 % 10), dc (y % 10), '-',
   dc (m / 10), dc (m % 10), '-', dc (d / 10), dc (d % 10)]

/-- Model of `time.strftime('%Y-%m-%d', tup)` for an in-range date. -/
def fmtYmd : Nat × Nat × Nat → String
  | (y, m, d) => String.mk (dateChars y m d)

/-- Model of `time.strftime('%Y-%m-%d.log', tup)`: the day's log file name. -/
def watchLogName (ymd : Nat × Nat × Nat) : String := fmtYmd ymd ++ ".log"

/-- The per-cycle resolution of the tailed file (lines 259-262): a
directory source gets today's dated log joined on; a file source is
used unchanged. -/
def resolve_watch_file (watch_path : String) (isDir : Bool) (t : Nat) : String :=
  if isDir then pyJoin watch_path (watchLogName (utcDate t)) else watch_path

/-- The date components `strftime` can actually receive from `gmtime`
within the four-digit-year era. -/
def dateInRange (x : Nat × Nat × Nat) : Prop :=
  x.1 < 10000 ∧ x.2.1 < 100 ∧ x.2.2 < 100

instance (x : Nat × Nat × Nat) : Decidable (dateInRange x) := by
  unfold dateInRange
  infer_instance

theorem strDataAppend (a b : String) : (a ++ b).data = a.data ++ b.data := by
  cases a
  cases b
  rfl

theorem strCancelLeft (a b c : String) (h : a ++ b = a ++ c) : b = c := by
  have hd := congrArg String.data h
  rw [strDataAppend, strDataAppend] at hd
  exact String.ext (List.append_cancel_left hd)

theorem strCancelRight (a b c : String) (h : a ++ c = b ++ c) : a = b := by
  have hd := congrArg String.data h
  rw [strDataAppend, strDataAppend] at hd
  exact String.ext (List.append_cancel_right hd)

theorem dc_inj : ∀ a < 10, ∀ b < 10, dc a = dc b → a = b := by decide

theorem dc_ne_slash : ∀ a < 10, ¬ dc a = '/' := by decide

theorem fmtYmd_inj (y m d y' m' d' : Nat)
    (hy : y < 10000) (hm : m < 100) (hd : d < 100)
    (hy' : y' < 10000) (hm' : m' < 100) (hd' : d' < 100)
    (h : fmtYmd (y, m, d) = fmtYmd (y', m', d')) :
    y = y' ∧ m = m' ∧ d = d' := by
  unfold fmtYmd dateChars at h
  injection h with hl
  simp only [List.cons.injEq, and_true] at hl
  obtain ⟨e1, e2, e3, e4, -, e5, e6, -, e7, e8⟩ := hl
  have g1 := dc_inj _ (by omega) _ (by omega) e1
  have g2 := dc_inj _ (by omega) _ (by omega) e2
  have g3 := dc_inj _ (by omega) _ (by omega) e3
  have g4 := dc_inj _ (by omega) _ (by omega) e4
  have g5 := dc_inj _ (by omega) _ (by omega) e5
  have g6 := dc_inj _ (by omega) _ (by omega) e6
  have g7 := dc_inj _ (by omega) _ (by omega) e7
  have g8 := dc_inj _ (by omega) _ (by omega) e8
  omega

theorem watchLogName_not_abs (y m d : Nat) (hy : y < 10000) :
    strStartsWithSlash (watchLogName (y, m, d)) = false := by
  have hdata : (watchLogName (y, m, d)).data = dateChars y m d ++ ".log".data := by
    unfold watchLogName fmtYmd
    rw [strDataAppend]
  unfold strStartsWithSlash
  rw [show (watchLogName (y, m, d)).toList = (watchLogName (y, m, d)).data from rfl, hdata]
  unfold dateChars
  simp only [List.cons_append]
  exact decide_eq_false (dc_ne_slash _ (by omega))

theorem pyJoin_inj_right (p s1 s2 : String)
    (h1 : strStartsWithSlash s1 = false) (h2 : strStartsWithSlash s2 = false)
    (heq : pyJoin p s1 = pyJoin p s2) : s1 = s2 := by
  unfold pyJoin at heq
  simp only [h1, h2, Bool.false_eq_true, if_false] at heq
  by_cases hp : p = ""
  · simpa [hp] using heq
  · simp only [if_neg hp] at heq
    by_cases hsl : strEndsWithSlash p = true
    · rw [if_pos hsl, if_pos hsl] at heq
      exact strCancelLeft _ _ _ heq
    · rw [if_neg hsl, if_neg hsl] at heq
      exact strCancelLeft _ _ _ heq

theorem watch_rotation_aux (p : String) (x1 x2 : Nat × Nat × Nat)
    (hne : x1 ≠ x2) (h1 : dateInRange x1) (h2 : dateInRange x2) :
    pyJoin p (watchLogName x1) ≠ pyJoin p (watchLogName x2) := by
  obtain ⟨y1, m1, d1⟩ := x1
  obtain ⟨y2, m2, d2⟩ := x2
  obtain ⟨hy1, hm1, hd1⟩ := h1
  obtain ⟨hy2, hm2, hd2⟩ := h2
  intro heq
  have hs := pyJoin_inj_right p _ _ (watchLogName_not_abs y1 m1 d1 hy1)
    (watchLogName_not_abs y2 m2 d2 hy2) heq
  have hf : fmtYmd (y1, m1, d1) = fmtYmd (y2, m2, d2) := strCancelRight _ _ _ hs
  have hcomp := fmtYmd_inj y1 m1 d1 y2 m2 d2 hy1 hm1 hd1 hy2 hm2 hd2 hf
  exact hne (by simp [hcomp.1, hcomp.2.1, hcomp.2.2])

/-- C9: each watch cycle resolves the tailed file afresh — a
non-directory source is used unchanged, a directory source gets the
current UTC date's `yyyy-mm-dd.log` joined on — and two cycles whose
current UTC dates differ (in particular, consecutive cycles straddling
UTC midnight) resolve to different files, with no restart involved. -/
theorem c9_watch_file_rotation (p : String) (t t1 t2 : Nat) :
    resolve_watch_file p false t = p ∧
    resolve_watch_file p true t = pyJoin p (watchLogName (utcDate t)) ∧
    (utcDate t1 ≠ utcDate t2 → dateInRange (utcDate t1) → dateInRange (utcDate t2) →
      resolve_watch_file p true t1 ≠ resolve_watch_file p true t2) := by
  refine ⟨rfl, ?_, ?_⟩
  · unfold resolve_watch_file
    rw [if_pos rfl]
  · intro hne h1 h2
    unfold resolve_watch_file
    rw [if_pos rfl, if_pos rfl]
    exact watch_rotation_aux p (utcDate t1) (utcDate t2) hne h1 h2

/-- Witness for C9 at the UTC midnight boundary between 1970-01-01 and
1970-01-02. -/
theorem c9_watch_file_rotation_witness :
    resolve_watch_file "logs" true 86399 ≠ resolve_watch_file "logs" true 86400 :=
  (c9_watch_file_rotation "logs" 0 86399 86400).2.2 (by decide) (by decide) (by decide)
